import Mathlib

/-!
# Verification of the `mnn-sys` build orchestration (`mnn-sys/build.rs`)

Shallow embedding of the build script's data model and operations:

* the build-option resolver (`CxxOption` / `CxxOptionValue` and its three
  serializations `cmake`, `cmake_value`, `cxx`);
* the vendor staging step (`ensure_vendor_exists` and the skip-if-exists copy);
* the two source patches applied to the staged headers
  (the `HalideRuntime.h` marker-window removal and the `MNNDefine.h`
  tracing-macro substitution, the latter via Rust's `str::replace`);
* the `MNN_COMPILE` toggle and the `MNN_LIB_DIR` fallback;
* the MSVC cross-compilation precondition (`clang-cl` detection) and the
  manual Configure/Compile/Install cmake state machine of `build_cmake`;
* the ordered stream of cargo directives emitted by `main`.

Machine integers (`usize` indices) are modelled as `Nat` with explicit
wrap-around modulo `2 ^ 64` where the source can underflow.
-/

namespace MnnSys

/-! ## Option resolver: `CxxOptionValue` and `CxxOption` -/

/-- Embeds `enum CxxOptionValue { On, Off, Value(&'static str) }`. -/
inductive CxxOptionValue where
  | On : CxxOptionValue
  | Off : CxxOptionValue
  | Value : String → CxxOptionValue
deriving DecidableEq, Repr

/-- Embeds `CxxOptionValue::from_bool`. -/
def CxxOptionValue.from_bool : Bool → CxxOptionValue
  | true => .On
  | false => .Off

/-- Embeds `struct CxxOption { name: &'static str, value: CxxOptionValue }`. -/
structure CxxOption where
  name : String
  value : CxxOptionValue
deriving DecidableEq, Repr

/-- Embeds `CxxOption::from_bool`. -/
def CxxOption.from_bool (name : String) (value : Bool) : CxxOption :=
  { name := name, value := CxxOptionValue.from_bool value }

/-- Embeds `CxxOption::cmake` (cmake define string `-DNAME=...`). -/
def CxxOption.cmake (o : CxxOption) : String :=
  match o.value with
  | .On => "-D" ++ o.name ++ "=ON"
  | .Off => "-D" ++ o.name ++ "=OFF"
  | .Value v => "-D" ++ o.name ++ "=" ++ v

/-- Embeds `CxxOption::cmake_value` (bare value string). -/
def CxxOption.cmake_value (o : CxxOption) : String :=
  match o.value with
  | .On => "ON"
  | .Off => "OFF"
  | .Value v => v

/-- Embeds `CxxOption::cxx` (preprocessor define string `-DNAME=...`). -/
def CxxOption.cxx (o : CxxOption) : String :=
  match o.value with
  | .On => "-D" ++ o.name ++ "=1"
  | .Off => "-D" ++ o.name ++ "=0"
  | .Value v => "-D" ++ o.name ++ "=" ++ v

/-- Embeds `CxxOption::enabled`. -/
def CxxOption.enabled (o : CxxOption) : Bool :=
  match o.value with
  | .On => true
  | .Off => false
  | .Value _ => true

/-- The compile-time cargo feature flags the build script consults
(`cfg!(feature = "...")` in the `cxx_option_from_feature!` macro). -/
structure Features where
  vulkan : Bool
  metal : Bool
  coreml : Bool
  opencl : Bool
  openmp : Bool
  opengl : Bool
  crt_static : Bool
  mnn_threadpool : Bool
deriving DecidableEq, Repr

/-- Embeds `CxxOption::VULKAN = cxx_option_from_feature!("vulkan", "MNN_VULKAN")`. -/
def CxxOption.VULKAN (f : Features) : CxxOption := CxxOption.from_bool "MNN_VULKAN" f.vulkan

/-- Embeds `CxxOption::METAL`. -/
def CxxOption.METAL (f : Features) : CxxOption := CxxOption.from_bool "MNN_METAL" f.metal

/-- Embeds `CxxOption::COREML`. -/
def CxxOption.COREML (f : Features) : CxxOption := CxxOption.from_bool "MNN_COREML" f.coreml

/-- Embeds `CxxOption::OPENCL`. -/
def CxxOption.OPENCL (f : Features) : CxxOption := CxxOption.from_bool "MNN_OPENCL" f.opencl

/-- Embeds `CxxOption::OPENMP`. -/
def CxxOption.OPENMP (f : Features) : CxxOption := CxxOption.from_bool "MNN_OPENMP" f.openmp

/-- Embeds `CxxOption::OPENGL`. -/
def CxxOption.OPENGL (f : Features) : CxxOption := CxxOption.from_bool "MNN_OPENGL" f.opengl

/-- Embeds `CxxOption::CRT_STATIC`. -/
def CxxOption.CRT_STATIC (f : Features) : CxxOption :=
  CxxOption.from_bool "MNN_WIN_RUNTIME_MT" f.crt_static

/-- Embeds `CxxOption::THREADPOOL`. -/
def CxxOption.THREADPOOL (f : Features) : CxxOption :=
  CxxOption.from_bool "MNN_USE_THREAD_POOL" f.mnn_threadpool

/-- The eight build options resolved from the feature set. -/
def allOptions (f : Features) : List CxxOption :=
  [CxxOption.VULKAN f, CxxOption.METAL f, CxxOption.COREML f, CxxOption.OPENCL f,
   CxxOption.OPENMP f, CxxOption.OPENGL f, CxxOption.CRT_STATIC f, CxxOption.THREADPOOL f]

end MnnSys

namespace MnnSys

/-! ## Vendor staging: `ensure_vendor_exists` and the skip-if-exists copy -/

/-- The source directory as seen through `read_dir`: `none` models a directory
whose `read_dir` fails (absent/unreadable), `some es` the list of entries that
`read_dir(..).flatten()` yields. -/
structure SourceDir where
  entries : Option (List String)
deriving DecidableEq, Repr

/-- The `with_context` message attached when `read_dir` on the vendor source
fails (path display elided). -/
def vendorMissingMsg : String := "Vendor directory missing: <source>"

/-- The `anyhow::bail!` message when the vendor source directory is empty. -/
def vendorEmptyMsg : String :=
  "Vendor not found maybe you need to run \"git submodule update --init\""

/-- Embeds `ensure_vendor_exists`: error if `read_dir` fails, error if the
entry count is zero, ok otherwise. -/
def ensure_vendor_exists (src : SourceDir) : Except String Unit :=
  match src.entries with
  | none => Except.error vendorMissingMsg
  | some es => if es.length = 0 then Except.error vendorEmptyMsg else Except.ok ()

/-- A filesystem write into the staging directory `out_dir/vendor`, in the
order `main` performs them on a fresh stage: the recursive vendor copy, then
the `HalideRuntime.h` patch write (if the marker was found), then the
`MNNDefine.h` patch write. -/
inductive StageWrite where
  | copyVendor : StageWrite
  | writeHalideRuntime : StageWrite
  | writeMnnDefine : StageWrite
deriving DecidableEq, Repr

/-- Embeds the staging portion of `main` (lines 103–144 of `build.rs`): first
`ensure_vendor_exists(&source)?`, then — only when `out_dir/vendor` does not
already exist — the recursive copy and the two patches.  Returns the result
together with the list of writes performed against the staging directory.
`halideMarkerFound` abstracts whether the `HalideRuntime.h` marker search hit
(the patched write only happens then); the `MNNDefine.h` write happens
unconditionally on a fresh stage. -/
def stageVendor (src : SourceDir) (stagingExists : Bool) (halideMarkerFound : Bool) :
    Except String Unit × List StageWrite :=
  match ensure_vendor_exists src with
  | Except.error e => (Except.error e, [])
  | Except.ok () =>
    if stagingExists then
      (Except.ok (), [])
    else
      (Except.ok (),
        [StageWrite.copyVendor] ++
          (if halideMarkerFound then [StageWrite.writeHalideRuntime] else []) ++
          [StageWrite.writeMnnDefine])

/-! ## `MNN_COMPILE` toggle and `MNN_LIB_DIR` fallback -/

/-- Embeds the `MNN_COMPILE` lazy static: the environment value is matched
against the recognized literals; anything else maps to `None`, and
`unwrap_or(true)` makes both an unset variable and an unrecognized value
default to `true`. -/
def mnn_compile (envVal : Option String) : Bool :=
  (envVal.bind fun v =>
    match v with
    | "1" | "true" | "yes" => some true
    | "0" | "false" | "no" => some false
    | _ => none).getD true

/-- The `panic!` message in `main` when compilation is disabled but
`MNN_LIB_DIR` is unset. -/
def libDirPanicMsg : String := "MNN_LIB_DIR not set while MNN_COMPILE is false"

/-- Embeds the link-search branch of `main` (lines 146–157): when
`*MNN_COMPILE` the install lib dir is emitted; otherwise `MNN_LIB_DIR` is
emitted if set, and the build panics (modelled as `Except.error`) if not. -/
def linkSearchStep (compile : Bool) (mnnLibDir : Option String) : Except String (List String) :=
  if compile then
    Except.ok ["cargo:rustc-link-search=native=OUT_DIR/mnn-install/lib"]
  else
    match mnnLibDir with
    | some d => Except.ok ["cargo:rustc-link-search=native=" ++ d]
    | none => Except.error libDirPanicMsg

/-! ## `HalideRuntime.h` marker-window removal -/

/-- The marker string `HALIDE_SEARCH` from `build.rs`. -/
def HALIDE_SEARCH : String :=
  "HALIDE_ATTRIBUTE_ALIGN(1) halide_type_code_t code; // halide_type_code_t"

/-- Subtraction of 1 on `usize`: `idx - 1` wraps modulo `2 ^ 64` (so `0 - 1`
underflows to `2 ^ 64 - 1`; a Rust debug build would panic here instead —
see claim C10). -/
def usizeSub1 (idx : Nat) : Nat := (idx + (2 ^ 64 - 1)) % 2 ^ 64

/-- Whether a line `contains` the Halide marker (Rust `str::contains`,
i.e. substring test). -/
def lineHasMarker (line : String) : Bool :=
  decide (HALIDE_SEARCH.data <:+: line.data)

/-- Embeds the `HalideRuntime.h` patch from `main` (lines 121–136), on the
file content already split into lines: `find_position` of the first line
containing the marker; if found, keep only the lines whose index is neither
`idx - 1` (usize arithmetic) nor in `idx + 1 ..= idx + 3`, and rewrite the
file (`some patchedLines`); if not found, no write happens (`none`). -/
def halidePatch (lns : List String) : Option (List String) :=
  match lns.findIdx? lineHasMarker with
  | some idx =>
    some (((lns.enum.filter fun p =>
      !(p.1 == usizeSub1 idx || (idx + 1 ≤ p.1 && p.1 ≤ idx + 3))).map Prod.snd))
  | none => none

/-- Modelled from the spec's words (§4.2 / claim C5), for comparison with
`halidePatch`: «remove that line's immediate predecessor and the following
three lines».  The predecessor index `idx - 1` only exists when `1 ≤ idx`. -/
def specMarkerWindowRemoval (idx : Nat) (lns : List String) : List String :=
  (lns.enum.filter fun p =>
    !((decide (1 ≤ idx) && p.1 == idx - 1) || (idx + 1 ≤ p.1 && p.1 ≤ idx + 3))).map Prod.snd

/-! ## `MNNDefine.h` tracing-macro substitution (`str::replace`) -/

/-- The exact two-macro search block `TRACING_SEARCH` from `build.rs`. -/
def TRACING_SEARCH : String :=
  "#define MNN_PRINT(format, ...) printf(format, ##__VA_ARGS__)\n#define MNN_ERROR(format, ...) printf(format, ##__VA_ARGS__)"

/-- The callback-redirecting replacement block `TRACING_REPLACE` from
`build.rs` (braces written as hex escapes). -/
def TRACING_REPLACE : String :=
  "\nenum class Level \x7b\n  Info = 0,\n  Error = 1,\n\x7d;\nextern \"C\" \x7b\nvoid mnn_ffi_emit(const char *file, size_t line, Level level,\n                  const char *message);\n\x7d\n#define MNN_PRINT(format, ...)                                                 \\\n  \x7b                                                                            \\\n    char logtmp[4096];                                                         \\\n    snprintf(logtmp, 4096, format, ##__VA_ARGS__);                             \\\n    mnn_ffi_emit(__FILE__, __LINE__, Level::Info, logtmp);                     \\\n  \x7d\n\n#define MNN_ERROR(format, ...)                                                 \\\n  \x7b                                                                            \\\n    char logtmp[4096];                                                         \\\n    snprintf(logtmp, 4096, format, ##__VA_ARGS__);                             \\\n    mnn_ffi_emit(__FILE__, __LINE__, Level::Error, logtmp);                    \\\n  \x7d\n"

/-- Rust `str::replace(s, r)` on character lists, for a non-empty pattern:
scan left to right; at each position, if the pattern `s` is a prefix, emit
the replacement `r` and continue after the matched occurrence, otherwise
keep the character and continue.  (For `s = []` the scan is never used by
the build script; we return the input unchanged.) -/
def replaceAll (s r : List Char) (l : List Char) : List Char :=
  match s, l with
  | [], l => l
  | _ :: _, [] => []
  | a :: s₂, c :: cs =>
    if (a :: s₂).isPrefixOf (c :: cs) then
      r ++ replaceAll (a :: s₂) r (cs.drop s₂.length)
    else
      c :: replaceAll (a :: s₂) r cs
termination_by l.length
decreasing_by
  · simp only [List.length_drop, List.length_cons]
    omega
  · simp only [List.length_cons]
    omega

/-- Embeds the `MNNDefine.h` patch from `main` (lines 138–143):
`read_to_string(..).replace(TRACING_SEARCH, TRACING_REPLACE)`, on the file
content as a character list. -/
def mnnDefinePatch (content : List Char) : List Char :=
  replaceAll TRACING_SEARCH.data TRACING_REPLACE.data content

/-! ## Platform environment, MSVC cross-compile checks, `build_cmake` -/

/-- The environment snapshot the build script consults: target triple parts
(`CARGO_CFG_TARGET_OS` / `CARGO_CFG_TARGET_ARCH`), the host OS
(`std::env::consts::OS`), and the compiler-selection variables
`CC_x86_64_pc_windows_msvc` and `CC`. -/
structure Env where
  targetOS : String
  targetArch : String
  hostOS : String
  ccMsvc : Option String
  cc : Option String
deriving DecidableEq, Repr

/-- Embeds the `IS_MSVC_TARGET` lazy static: x86_64 Windows target while the
host is not Windows (cross-compiling). -/
def is_msvc_target (e : Env) : Bool :=
  e.targetOS == "windows" && e.targetArch == "x86_64" && e.hostOS != "windows"

/-- Rust `str::contains` (substring test) on Lean strings. -/
def containsSubstr (needle hay : String) : Bool :=
  decide (needle.data <:+: hay.data)

/-- The configured C compiler:
`env::var("CC_x86_64_pc_windows_msvc").or_else(|_| env::var("CC")).unwrap_or_default()`. -/
def configuredCC (e : Env) : String :=
  (e.ccMsvc.or e.cc).getD ""

/-- Embeds the `is_clang_cl` check: the configured compiler path contains the
substring `clang-cl`. -/
def is_clang_cl (e : Env) : Bool :=
  containsSubstr "clang-cl" (configuredCC e)

/-- The `anyhow::bail!` message of both `build_cmake` and `mnn_c_build` when
the MSVC cross-compile path lacks `clang-cl`. -/
def clangClMissingMsg : String :=
  "Building for x86_64-pc-windows-msvc on macOS/Linux requires `clang-cl` (typically provided by `cargo-xwin`).\nPlease install `cargo-xwin` (`cargo install cargo-xwin`) and then run your build command with `cargo xwin build ...`.\nEnsure that the `INCLUDE` and `LIB` environment variables are correctly set for the Windows SDK and MSVC toolchain."

/-- The three cmake subprocess states of the manual cross-compile path. -/
inductive CmakeStage where
  | configure : CmakeStage
  | compile : CmakeStage
  | install : CmakeStage
deriving DecidableEq, Repr

/-- Events of a `build_cmake` invocation: filesystem preparation of the
build directory, a cmake subprocess spawn (manual path), or the generic
`cmake::Config::build()` call (which spawns cmake itself). -/
inductive BuildEvent where
  | removeBuildDir : BuildEvent
  | createBuildDir : BuildEvent
  | spawn : CmakeStage → BuildEvent
  | genericCmakeBuild : BuildEvent
deriving DecidableEq, Repr

/-- Whether an event is a subprocess spawn. -/
def BuildEvent.isSpawn : BuildEvent → Bool
  | .spawn _ => true
  | .genericCmakeBuild => true
  | _ => false

/-- Exit status of each cmake subprocess, supplied by the outside world. -/
structure CmakeOutcomes where
  configureOk : Bool
  compileOk : Bool
  installOk : Bool
deriving DecidableEq, Repr

/-- The state-labeled fatal error messages of the manual path. -/
def configureFailMsg : String := "Manual CMake configuration failed"

/-- Fatal error message when the manual cmake build subprocess exits non-zero. -/
def compileFailMsg : String := "Manual CMake build failed"

/-- Fatal error message when the manual cmake install subprocess exits non-zero. -/
def installFailMsg : String := "Manual CMake install failed"

/-- Embeds `build_cmake` (lines 406–613): on the manual Windows
cross-compile path (`TARGET_OS == "windows" && TARGET_ARCH == "x86_64" &&
host != "windows"`, the same predicate as `IS_MSVC_TARGET`), the build
directory is cleaned and recreated, the cmake argument list is assembled
(pure), then the build bails if the configured compiler is not `clang-cl`;
otherwise the Configure, Compile and Install subprocesses run in that order,
each checked, any failure fatal.  The generic path delegates to
`cmake::Config::build()`.  Returns the result together with the ordered
event trace. -/
def build_cmake (e : Env) (buildDirExists : Bool) (o : CmakeOutcomes) :
    Except String Unit × List BuildEvent :=
  if is_msvc_target e then
    let pre : List BuildEvent :=
      (if buildDirExists then [BuildEvent.removeBuildDir] else []) ++ [BuildEvent.createBuildDir]
    if !is_clang_cl e then
      (Except.error clangClMissingMsg, pre)
    else if !o.configureOk then
      (Except.error configureFailMsg, pre ++ [BuildEvent.spawn CmakeStage.configure])
    else if !o.compileOk then
      (Except.error compileFailMsg,
        pre ++ [BuildEvent.spawn CmakeStage.configure, BuildEvent.spawn CmakeStage.compile])
    else if !o.installOk then
      (Except.error installFailMsg,
        pre ++ [BuildEvent.spawn CmakeStage.configure, BuildEvent.spawn CmakeStage.compile,
          BuildEvent.spawn CmakeStage.install])
    else
      (Except.ok (),
        pre ++ [BuildEvent.spawn CmakeStage.configure, BuildEvent.spawn CmakeStage.compile,
          BuildEvent.spawn CmakeStage.install])
  else
    (Except.ok (), [BuildEvent.genericCmakeBuild])

/-- The cargo directives the `cc` crate emits when `try_compile("mnn_c")`
succeeds (a native link-search into `OUT_DIR` and the static-library link
directive for the shim library). -/
def shimDirectives : List String :=
  ["cargo:rustc-link-search=native=OUT_DIR", "cargo:rustc-link-lib=static=mnn_c"]

/-- Embeds `mnn_c_build` (lines 341–404): on the MSVC cross-compile target
the configured compiler must be `clang-cl`, otherwise the same actionable
bail as `build_cmake`; on success the `cc` crate compiles the shim sources
into the static library `mnn_c` and emits its link directives. -/
def mnn_c_build (e : Env) : Except String (List String) :=
  if is_msvc_target e && !is_clang_cl e then
    Except.error clangClMissingMsg
  else
    Except.ok shimDirectives

/-! ## The directive stream of `main` -/

/-- Whether `e.targetOS/targetArch` is the emscripten wasm32 target
(`is_emscripten`). -/
def is_emscripten (e : Env) : Bool :=
  e.targetOS == "emscripten" && e.targetArch == "wasm32"

/-- The feature-gated macOS framework link directives of `main`
(lines 164–178), in source order. -/
def frameworkDirectives (e : Env) (f : Features) : List String :=
  if e.targetOS == "macos" then
    (if f.metal then
      ["cargo:rustc-link-lib=framework=Foundation",
       "cargo:rustc-link-lib=framework=CoreGraphics",
       "cargo:rustc-link-lib=framework=Metal"] else []) ++
    (if f.coreml then
      ["cargo:rustc-link-lib=framework=CoreML",
       "cargo:rustc-link-lib=framework=CoreVideo"] else []) ++
    (if f.opencl then ["cargo:rustc-link-lib=framework=OpenCL"] else []) ++
    (if f.opengl then ["cargo:rustc-link-lib=framework=OpenGL"] else [])
  else []

/-- The emscripten extra link-search directive of `main` (lines 183–196). -/
def emscriptenDirectives (e : Env) : List String :=
  if is_emscripten e then
    ["cargo:rustc-link-search=native=EMSCRIPTEN_CACHE/sysroot/lib/wasm32-emscripten"]
  else []

/-- Embeds the cargo directive stream of `main` (lines 93–198) for a build
invocation that passes staging: the two rerun directives, the
compile/precompiled link-search step, the shim build (its `cc`-emitted
directives), the include advertisement, the macOS framework directives, the
emscripten search path, and finally `cargo:rustc-link-lib=static=MNN`.
Bindgen's `rerun-if-changed` lines are elided (they are not linkage
directives).  Errors of any step propagate. -/
def mainDirectives (e : Env) (f : Features) (mnnCompileVar : Option String)
    (mnnLibDir : Option String) : Except String (List String) :=
  match linkSearchStep (mnn_compile mnnCompileVar) mnnLibDir with
  | Except.error err => Except.error err
  | Except.ok searchDirs =>
    match mnn_c_build e with
    | Except.error err => Except.error err
    | Except.ok shimDirs =>
      Except.ok
        (["cargo:rerun-if-changed=build.rs", "cargo:rerun-if-env-changed=MNN_SRC"] ++
          searchDirs ++ shimDirs ++
          ["cargo:include=OUT_DIR/vendor/include"] ++
          frameworkDirectives e f ++ emscriptenDirectives e ++
          ["cargo:rustc-link-lib=static=MNN"])

/-- A cargo linkage directive (link-search, link-lib, framework link). -/
def isLinkDirective (s : String) : Bool :=
  "cargo:rustc-link-".data.isPrefixOf s.data

/-- Claim C1: All three serializations of a `CxxOption` are pure functions of the
single canonical tagged value: `On` yields `-DNAME=ON` / `-DNAME=1` / `ON`,
`Off` yields `-DNAME=OFF` / `-DNAME=0` / `OFF`, and `Value v` yields
`-DNAME=v` / `-DNAME=v` / `v`; moreover every one of the eight build options,
for every feature combination, carries the canonical value derived from its
feature flag, so the enabled/disabled state the three serializations encode
is identical. -/
theorem cxx_option_three_serializations (o : CxxOption) (f : Features) :
    (o.value = CxxOptionValue.On →
      o.cmake = "-D" ++ o.name ++ "=ON" ∧ o.cxx = "-D" ++ o.name ++ "=1" ∧
        o.cmake_value = "ON") ∧
    (o.value = CxxOptionValue.Off →
      o.cmake = "-D" ++ o.name ++ "=OFF" ∧ o.cxx = "-D" ++ o.name ++ "=0" ∧
        o.cmake_value = "OFF") ∧
    (∀ v, o.value = CxxOptionValue.Value v →
      o.cmake = "-D" ++ o.name ++ "=" ++ v ∧ o.cxx = "-D" ++ o.name ++ "=" ++ v ∧
        o.cmake_value = v) ∧
    (∀ o₂ ∈ allOptions f, o₂.value = CxxOptionValue.from_bool (o₂.enabled)) := by
  refine ⟨?_, ?_, ?_, ?_⟩
  · intro h
    simp [CxxOption.cmake, CxxOption.cxx, CxxOption.cmake_value, h]
  · intro h
    simp [CxxOption.cmake, CxxOption.cxx, CxxOption.cmake_value, h]
  · intro v h
    simp [CxxOption.cmake, CxxOption.cxx, CxxOption.cmake_value, h]
  · have key : ∀ (n : String) (b : Bool),
        (CxxOption.from_bool n b).value =
          CxxOptionValue.from_bool ((CxxOption.from_bool n b).enabled) := by
      intro n b
      cases b <;> rfl
    intro o₂ h₂
    simp only [allOptions, List.mem_cons, List.not_mem_nil, or_false] at h₂
    rcases h₂ with h | h | h | h | h | h | h | h <;> subst h <;> exact key _ _

/-- Witness for C1 at the concrete option `MNN_VULKAN = On` and the
all-features-enabled flag set. -/
theorem cxx_option_three_serializations_witness :
    (CxxOption.mk "MNN_VULKAN" CxxOptionValue.On).value = CxxOptionValue.On ∧
    (CxxOption.mk "MNN_VULKAN" CxxOptionValue.On).cmake = "-DMNN_VULKAN=ON" ∧
    (CxxOption.mk "MNN_VULKAN" CxxOptionValue.On).cxx = "-DMNN_VULKAN=1" ∧
    (CxxOption.mk "MNN_VULKAN" CxxOptionValue.On).cmake_value = "ON" := by
  have h := (cxx_option_three_serializations (CxxOption.mk "MNN_VULKAN" CxxOptionValue.On)
    (Features.mk true true true true true true true true)).1 rfl
  exact ⟨rfl, h.1, h.2.1, h.2.2⟩

/-- Claim C2: When the vendor source directory is absent (`read_dir` fails) or
contains zero entries, staging fails with a vendor-missing error telling the
user to fetch vendor sources, and performs no write to the staging
directory. -/
theorem vendor_missing_fails_without_staging (src : SourceDir)
    (stagingExists halideMarkerFound : Bool)
    (h : src.entries = none ∨ src.entries = some []) :
    ((stageVendor src stagingExists halideMarkerFound).1 = Except.error vendorMissingMsg ∨
      (stageVendor src stagingExists halideMarkerFound).1 = Except.error vendorEmptyMsg) ∧
    (stageVendor src stagingExists halideMarkerFound).2 = [] := by
  rcases h with h | h <;>
    simp [stageVendor, ensure_vendor_exists, h]

/-- Witness for C2: an absent source directory. -/
theorem vendor_missing_fails_without_staging_witness :
    ((stageVendor (SourceDir.mk none) false true).1 = Except.error vendorMissingMsg ∨
      (stageVendor (SourceDir.mk none) false true).1 = Except.error vendorEmptyMsg) ∧
    (stageVendor (SourceDir.mk none) false true).2 = [] :=
  vendor_missing_fails_without_staging (SourceDir.mk none) false true (Or.inl rfl)

/-- Claim C3: When the staging directory `out_dir/vendor` already exists, the
staging step performs zero filesystem writes to it — no copy and no patch —
whatever the current vendor source contents are (`src` is arbitrary among
directories that pass the vendor check). -/
theorem staging_idempotent_skip (src : SourceDir) (halideMarkerFound : Bool)
    (h : ensure_vendor_exists src = Except.ok ()) :
    stageVendor src true halideMarkerFound = (Except.ok (), []) := by
  simp [stageVendor, h]

/-- Witness for C3: a populated source directory and an existing staging
directory. -/
theorem staging_idempotent_skip_witness :
    ensure_vendor_exists (SourceDir.mk (some ["MNN"])) = Except.ok () ∧
    stageVendor (SourceDir.mk (some ["MNN"])) true true = (Except.ok (), []) :=
  ⟨rfl, staging_idempotent_skip (SourceDir.mk (some ["MNN"])) true rfl⟩

/-- Claim C9: `MNN_COMPILE` parsing: `"1"`, `"true"`, `"yes"` enable
compilation; `"0"`, `"false"`, `"no"` disable it; every other value, and an
unset variable, silently defaults to enabled.  When compilation is disabled
and `MNN_LIB_DIR` is unset, the build panics (modelled as the fatal error
`libDirPanicMsg`). -/
theorem mnn_compile_parsing :
    mnn_compile none = true ∧
    mnn_compile (some "1") = true ∧
    mnn_compile (some "true") = true ∧
    mnn_compile (some "yes") = true ∧
    mnn_compile (some "0") = false ∧
    mnn_compile (some "false") = false ∧
    mnn_compile (some "no") = false ∧
    (∀ v, v ≠ "1" → v ≠ "true" → v ≠ "yes" → v ≠ "0" → v ≠ "false" → v ≠ "no" →
      mnn_compile (some v) = true) ∧
    linkSearchStep false none = Except.error libDirPanicMsg := by
  refine ⟨rfl, rfl, rfl, rfl, rfl, rfl, rfl, ?_, rfl⟩
  intro v h1 h2 h3 h4 h5 h6
  simp [mnn_compile, h1, h2, h3, h4, h5, h6]

/-- Helper: a successful `findIdx?` returns an index below the length. -/
theorem findIdx?_lt_length {α : Type} {p : α → Bool} {xs : List α} {i : Nat}
    (h : xs.findIdx? p = some i) : i < xs.length := by
  rcases List.findIdx?_eq_some_iff_getElem.mp h with ⟨hlt, _⟩
  exact hlt

/-- Helper: filtering an enumeration by two predicates that agree on all
indices in range gives the same list. -/
theorem filter_enumFrom_congr {α : Type} (p q : Nat × α → Bool) :
    ∀ (n : Nat) (l : List α),
      (∀ i a, n ≤ i → i < n + l.length → p (i, a) = q (i, a)) →
      (l.enumFrom n).filter p = (l.enumFrom n).filter q := by
  intro n l
  induction l generalizing n with
  | nil => intro _; rfl
  | cons c cs ih =>
    intro h
    have hc : p (n, c) = q (n, c) := by
      refine h n c (Nat.le_refl n) ?_
      simp only [List.length_cons]
      omega
    have ht : (cs.enumFrom (n + 1)).filter p = (cs.enumFrom (n + 1)).filter q := by
      refine ih (n + 1) ?_
      intro i a hi hlt
      refine h i a (by omega) ?_
      simp only [List.length_cons]
      simp only [List.length_cons] at hlt
      omega
    simp only [List.enumFrom, List.filter_cons, hc, ht]

/-- Helper: the wrapped `usize` predecessor of an in-range index. -/
theorem usizeSub1_eq (idx : Nat) (h : idx < 2 ^ 64) :
    usizeSub1 idx = if idx = 0 then 2 ^ 64 - 1 else idx - 1 := by
  have h64 : (2 : Nat) ^ 64 = 18446744073709551616 := by norm_num
  rcases Nat.eq_zero_or_pos idx with h0 | h0
  · subst h0
    rw [if_pos rfl]
    show (0 + (2 ^ 64 - 1)) % 2 ^ 64 = 2 ^ 64 - 1
    rw [h64]
  · rw [if_neg (by omega)]
    simp only [usizeSub1, h64]
    rw [h64] at h
    omega

/-- Claim C5: The `HalideRuntime.h` marker-window removal agrees with the
spec's description on every file content whose line count fits in `usize`:
if some line contains the marker, the file is rewritten with the first
matching line's predecessor (when it exists) and the three following lines
removed, the marker line itself kept; if no line contains the marker, no
write happens. -/
theorem halide_patch_matches_spec (lns : List String)
    (hlen : lns.length + 3 < 2 ^ 64) :
    (∀ idx, lns.findIdx? lineHasMarker = some idx →
      halidePatch lns = some (specMarkerWindowRemoval idx lns)) ∧
    (lns.findIdx? lineHasMarker = none → halidePatch lns = none) := by
  have h64 : (2 : Nat) ^ 64 = 18446744073709551616 := by norm_num
  constructor
  · intro idx hfind
    have hidx : idx < lns.length := findIdx?_lt_length hfind
    unfold halidePatch specMarkerWindowRemoval
    rw [hfind]
    refine congrArg some (congrArg (List.map Prod.snd) ?_)
    unfold List.enum
    apply filter_enumFrom_congr
    intro i a hi hlt
    simp only [Nat.zero_add] at hlt
    have hu : usizeSub1 idx = if idx = 0 then 2 ^ 64 - 1 else idx - 1 :=
      usizeSub1_eq idx (by omega)
    rcases Nat.eq_zero_or_pos idx with h0 | h0
    · subst h0
      rw [hu]
      simp only [if_pos rfl]
      have hne : i ≠ 2 ^ 64 - 1 := by
        rw [h64]
        rw [h64] at hlen
        omega
      simp [hne]
      omega
    · rw [hu, if_neg (by omega)]
      simp only [Nat.lt_irrefl]
      have : decide (1 ≤ idx) = true := by
        simp only [decide_eq_true_eq]
        omega
      rw [this]
      simp only [Bool.true_and]
  · intro hfind
    unfold halidePatch
    rw [hfind]

/-- Witness for C5: a five-line file with the marker on its second line; the
first line (the predecessor) and the three lines after the marker are
removed. -/
theorem halide_patch_matches_spec_witness :
    (["before", HALIDE_SEARCH, "x", "y", "z", "after"].length + 3 < 2 ^ 64) ∧
    (["before", HALIDE_SEARCH, "x", "y", "z", "after"].findIdx? lineHasMarker = some 1) ∧
    halidePatch ["before", HALIDE_SEARCH, "x", "y", "z", "after"] =
      some (specMarkerWindowRemoval 1 ["before", HALIDE_SEARCH, "x", "y", "z", "after"]) ∧
    specMarkerWindowRemoval 1 ["before", HALIDE_SEARCH, "x", "y", "z", "after"] =
      [HALIDE_SEARCH, "after"] := by
  have h1 : (["before", HALIDE_SEARCH, "x", "y", "z", "after"].length + 3 < 2 ^ 64) := by
    norm_num
  have h2 : ["before", HALIDE_SEARCH, "x", "y", "z", "after"].findIdx? lineHasMarker =
      some 1 := by decide
  exact ⟨h1, h2,
    (halide_patch_matches_spec ["before", HALIDE_SEARCH, "x", "y", "z", "after"] h1).1 1 h2,
    by decide⟩

/-- Claim C10: The marker-window removal underflows when the marker is on the
first line: the `usize` computation `idx - 1` wraps to `2 ^ 64 - 1` (a Rust
debug build would panic at the same subtraction), so the predecessor
removal matches no line while the three following lines are still deleted —
only 3 lines are removed, not a 4-line window. -/
theorem halide_patch_first_line_underflow :
    usizeSub1 0 = 2 ^ 64 - 1 ∧
    halidePatch [HALIDE_SEARCH, "a", "b", "c", "d"] = some [HALIDE_SEARCH, "d"] ∧
    (halidePatch [HALIDE_SEARCH, "a", "b", "c", "d"]).map List.length =
      some ([HALIDE_SEARCH, "a", "b", "c", "d"].length - 3) := by
  refine ⟨?_, by decide, by decide⟩
  have h64 : (2 : Nat) ^ 64 = 18446744073709551616 := by norm_num
  simp only [usizeSub1, h64]

/-- Helper: `str::replace` leaves an input without any occurrence of the
pattern unchanged. -/
theorem replaceAll_of_no_occurrence (s r : List Char) :
    ∀ l, ¬ s <:+: l → replaceAll s r l = l := by
  intro l
  induction l with
  | nil =>
    intro _
    cases s <;> simp [replaceAll]
  | cons c cs ih =>
    intro h
    cases s with
    | nil => simp [replaceAll]
    | cons a s₂ =>
      have hpre : ¬ (a :: s₂).isPrefixOf (c :: cs) := by
        intro hp
        exact h ( List.isPrefixOf_iff_prefix.mp hp).isInfix
      simp only [replaceAll, if_neg hpre]
      rw [ih (fun hinf => h (List.infix_cons hinf))]

/-- Helper: `str::replace` replaces an occurrence of the pattern before which
no other occurrence starts, and continues scanning in the remainder. -/
theorem replaceAll_leftmost (s r post : List Char) (hs : s ≠ []) :
    ∀ pre, ¬ s <:+: (pre ++ s.dropLast) →
      replaceAll s r (pre ++ s ++ post) = pre ++ r ++ replaceAll s r post := by
  intro pre
  induction pre with
  | nil =>
    intro _
    obtain ⟨a, s₂, rfl⟩ := List.exists_cons_of_ne_nil hs
    have hpre : (a :: s₂).isPrefixOf (a :: (s₂ ++ post)) := by
      rw [ List.isPrefixOf_iff_prefix]
      exact List.prefix_append (a :: s₂) post
    show replaceAll (a :: s₂) r (a :: (s₂ ++ post)) = [] ++ r ++ replaceAll (a :: s₂) r post
    rw [replaceAll]
    rw [if_pos hpre]
    rw [List.drop_left]
    rw [List.nil_append]
  | cons c pre' ih =>
    intro h
    obtain ⟨a, s₂, rfl⟩ := List.exists_cons_of_ne_nil hs
    have hq : ((c :: pre') ++ (a :: s₂).dropLast) <+: (c :: pre') ++ (a :: s₂) ++ post := by
      have hdecomp : (c :: pre') ++ (a :: s₂) ++ post =
          ((c :: pre') ++ (a :: s₂).dropLast) ++
            ([(a :: s₂).getLast (by simp)] ++ post) := by
        conv_lhs => rw [← @List.dropLast_append_getLast _ (a :: s₂) (by simp)]
        simp [List.append_assoc]
      rw [hdecomp]
      exact List.prefix_append _ _
    have hnp : ¬ (a :: s₂).isPrefixOf ((c :: pre') ++ (a :: s₂) ++ post) := by
      intro hp
      have hp' : (a :: s₂) <+: (c :: pre') ++ (a :: s₂) ++ post :=
        List.isPrefixOf_iff_prefix.mp hp
      have hlen : (a :: s₂).length ≤ ((c :: pre') ++ (a :: s₂).dropLast).length := by
        simp only [List.length_append, List.length_cons, List.length_dropLast]
        omega
      exact h ((List.prefix_of_prefix_length_le hp' hq hlen).isInfix)
    simp only [List.cons_append] at hnp h ⊢
    simp only [replaceAll, if_neg hnp]
    rw [ih (fun hinf => h (List.infix_cons hinf))]

set_option maxRecDepth 8192 in
/-- Claim C4: The `MNNDefine.h` macro-block substitution is exact-match only:
a content in which the exact `TRACING_SEARCH` block does not occur is left
unchanged (and no error is raised — the patch is total); a content
containing the block has each occurrence (scanning left to right, i.e. each
occurrence before which no other occurrence starts) replaced verbatim by
`TRACING_REPLACE`, the scan continuing after it. -/
theorem tracing_patch_exact_match (content : List Char) :
    (¬ TRACING_SEARCH.data <:+: content → mnnDefinePatch content = content) ∧
    (∀ pre post, content = pre ++ TRACING_SEARCH.data ++ post →
      ¬ TRACING_SEARCH.data <:+: (pre ++ TRACING_SEARCH.data.dropLast) →
      mnnDefinePatch content = pre ++ TRACING_REPLACE.data ++ mnnDefinePatch post) := by
  constructor
  · exact replaceAll_of_no_occurrence _ _ content
  · intro pre post hc hno
    rw [hc]
    exact replaceAll_leftmost TRACING_SEARCH.data TRACING_REPLACE.data post
      (by decide) pre hno

set_option maxRecDepth 8192 in
/-- Witness for C4: a one-character file without the block is unchanged, and
a file that is exactly the block becomes exactly the replacement. -/
theorem tracing_patch_exact_match_witness :
    (¬ TRACING_SEARCH.data <:+: [' '] ∧ mnnDefinePatch [' '] = [' ']) ∧
    mnnDefinePatch ([] ++ TRACING_SEARCH.data ++ []) =
      [] ++ TRACING_REPLACE.data ++ mnnDefinePatch [] := by
  have hni : ¬ TRACING_SEARCH.data <:+: [' '] := by
    intro h
    have hle := h.length_le
    have hbig : 100 < TRACING_SEARCH.data.length := by decide
    simp only [List.length_cons, List.length_nil] at hle
    omega
  have hlast : ¬ TRACING_SEARCH.data <:+: ([] ++ TRACING_SEARCH.data.dropLast) := by
    intro h
    have hle := h.length_le
    rw [List.nil_append, List.length_dropLast] at hle
    have hpos : 0 < TRACING_SEARCH.data.length := by decide
    omega
  exact ⟨⟨hni, (tracing_patch_exact_match [' ']).1 hni⟩,
    (tracing_patch_exact_match ([] ++ TRACING_SEARCH.data ++ [])).2 [] [] rfl hlast⟩

set_option maxRecDepth 8192 in
/-- Claim C6: Cross-compiling to x86_64 Windows (MSVC) from a non-Windows host
without a configured `clang-cl` compiler makes both the native build driver
(`build_cmake`) and the shim compiler (`mnn_c_build`) fail with the same
actionable error mentioning `cargo-xwin`; in `build_cmake` the failure
happens before any cmake subprocess is spawned. -/
theorem msvc_cross_requires_clang_cl (e : Env) (bde : Bool) (o : CmakeOutcomes)
    (hm : is_msvc_target e = true) (hc : is_clang_cl e = false) :
    (build_cmake e bde o).1 = Except.error clangClMissingMsg ∧
    (build_cmake e bde o).2.filter BuildEvent.isSpawn = [] ∧
    mnn_c_build e = Except.error clangClMissingMsg ∧
    containsSubstr "cargo-xwin" clangClMissingMsg = true := by
  refine ⟨?_, ?_, ?_, ?_⟩
  · simp [build_cmake, hm, hc]
  · cases bde <;> simp [build_cmake, hm, hc, BuildEvent.isSpawn]
  · simp [mnn_c_build, hm, hc]
  · decide

/-- Witness for C6: targeting x86_64 Windows from a Linux host with no
compiler variables set. -/
theorem msvc_cross_requires_clang_cl_witness :
    is_msvc_target (Env.mk "windows" "x86_64" "linux" none none) = true ∧
    is_clang_cl (Env.mk "windows" "x86_64" "linux" none none) = false ∧
    (build_cmake (Env.mk "windows" "x86_64" "linux" none none) false
        (CmakeOutcomes.mk true true true)).1 = Except.error clangClMissingMsg ∧
    (build_cmake (Env.mk "windows" "x86_64" "linux" none none) false
        (CmakeOutcomes.mk true true true)).2.filter BuildEvent.isSpawn = [] := by
  have h := msvc_cross_requires_clang_cl (Env.mk "windows" "x86_64" "linux" none none)
    false (CmakeOutcomes.mk true true true) (by decide) (by decide)
  exact ⟨by decide, by decide, h.1, h.2.1⟩

/-- Claim C7: The manual Windows cross-compile path runs Configure, Compile
and Install as three separate cmake subprocesses in that order; a non-zero
exit at any state yields the state-labeled fatal error, none of the later
states are spawned, and the event trace shows no cleanup after a failure
(the only filesystem events are the initial build-directory preparation). -/
theorem manual_cmake_state_machine (e : Env) (bde : Bool) (o : CmakeOutcomes)
    (hm : is_msvc_target e = true) (hc : is_clang_cl e = true) :
    (o.configureOk = false →
      build_cmake e bde o =
        (Except.error configureFailMsg,
          (if bde then [BuildEvent.removeBuildDir] else []) ++
            [BuildEvent.createBuildDir, BuildEvent.spawn CmakeStage.configure])) ∧
    (o.configureOk = true → o.compileOk = false →
      build_cmake e bde o =
        (Except.error compileFailMsg,
          (if bde then [BuildEvent.removeBuildDir] else []) ++
            [BuildEvent.createBuildDir, BuildEvent.spawn CmakeStage.configure,
              BuildEvent.spawn CmakeStage.compile])) ∧
    (o.configureOk = true → o.compileOk = true → o.installOk = false →
      build_cmake e bde o =
        (Except.error installFailMsg,
          (if bde then [BuildEvent.removeBuildDir] else []) ++
            [BuildEvent.createBuildDir, BuildEvent.spawn CmakeStage.configure,
              BuildEvent.spawn CmakeStage.compile, BuildEvent.spawn CmakeStage.install])) ∧
    (o.configureOk = true → o.compileOk = true → o.installOk = true →
      build_cmake e bde o =
        (Except.ok (),
          (if bde then [BuildEvent.removeBuildDir] else []) ++
            [BuildEvent.createBuildDir, BuildEvent.spawn CmakeStage.configure,
              BuildEvent.spawn CmakeStage.compile, BuildEvent.spawn CmakeStage.install])) := by
  refine ⟨?_, ?_, ?_, ?_⟩
  · intro h1
    simp [build_cmake, hm, hc, h1]
  · intro h1 h2
    simp [build_cmake, hm, hc, h1, h2]
  · intro h1 h2 h3
    simp [build_cmake, hm, hc, h1, h2, h3]
  · intro h1 h2 h3
    simp [build_cmake, hm, hc, h1, h2, h3]

/-- Witness for C7: with `clang-cl` configured, a failing Configure stage
stops the machine after its single spawn, and an all-green run spawns
exactly the three stages in order. -/
theorem manual_cmake_state_machine_witness :
    build_cmake (Env.mk "windows" "x86_64" "linux" (some "/usr/bin/clang-cl") none) false
        (CmakeOutcomes.mk false true true) =
      (Except.error configureFailMsg,
        [BuildEvent.createBuildDir, BuildEvent.spawn CmakeStage.configure]) ∧
    build_cmake (Env.mk "windows" "x86_64" "linux" (some "/usr/bin/clang-cl") none) false
        (CmakeOutcomes.mk true true true) =
      (Except.ok (),
        [BuildEvent.createBuildDir, BuildEvent.spawn CmakeStage.configure,
          BuildEvent.spawn CmakeStage.compile, BuildEvent.spawn CmakeStage.install]) := by
  have h1 := (manual_cmake_state_machine
    (Env.mk "windows" "x86_64" "linux" (some "/usr/bin/clang-cl") none) false
    (CmakeOutcomes.mk false true true) (by decide) (by decide)).1 rfl
  have h2 := (manual_cmake_state_machine
    (Env.mk "windows" "x86_64" "linux" (some "/usr/bin/clang-cl") none) false
    (CmakeOutcomes.mk true true true) (by decide) (by decide)).2.2.2 rfl rfl rfl
  exact ⟨by simpa using h1, by simpa using h2⟩

/-- Counterexample to claim C8 as stated: in a plain Linux native build, the
directive stream ends with the vendored engine's link directive
`static=MNN`, not with the shim library's `static=mnn_c`, which is emitted
earlier (during shim compilation); so the shim link directive is not the
last linkage directive. -/
theorem shim_link_directive_not_last :
    mainDirectives (Env.mk "linux" "x86_64" "linux" none none)
        (Features.mk false false false false false false false false) none none =
      Except.ok
        ["cargo:rerun-if-changed=build.rs", "cargo:rerun-if-env-changed=MNN_SRC",
          "cargo:rustc-link-search=native=OUT_DIR/mnn-install/lib",
          "cargo:rustc-link-search=native=OUT_DIR", "cargo:rustc-link-lib=static=mnn_c",
          "cargo:include=OUT_DIR/vendor/include", "cargo:rustc-link-lib=static=MNN"] ∧
    (["cargo:rerun-if-changed=build.rs", "cargo:rerun-if-env-changed=MNN_SRC",
        "cargo:rustc-link-search=native=OUT_DIR/mnn-install/lib",
        "cargo:rustc-link-search=native=OUT_DIR", "cargo:rustc-link-lib=static=mnn_c",
        "cargo:include=OUT_DIR/vendor/include", "cargo:rustc-link-lib=static=MNN"].filter
      isLinkDirective).getLast? = some "cargo:rustc-link-lib=static=MNN" ∧
    (["cargo:rerun-if-changed=build.rs", "cargo:rerun-if-env-changed=MNN_SRC",
        "cargo:rustc-link-search=native=OUT_DIR/mnn-install/lib",
        "cargo:rustc-link-search=native=OUT_DIR", "cargo:rustc-link-lib=static=mnn_c",
        "cargo:include=OUT_DIR/vendor/include", "cargo:rustc-link-lib=static=MNN"].filter
      isLinkDirective).getLast? ≠ some "cargo:rustc-link-lib=static=mnn_c" := by
  refine ⟨rfl, by decide, by decide⟩

/-- Claim C8, amended: In every successful build invocation, the last
directive of the stream — and in particular the last linkage directive — is
the vendored `MNN` static-library link directive; the shim library's
`static=mnn_c` directive is present but emitted earlier. -/
theorem mnn_link_directive_last (e : Env) (f : Features) (cv ld : Option String)
    (L : List String) (h : mainDirectives e f cv ld = Except.ok L) :
    L.getLast? = some "cargo:rustc-link-lib=static=MNN" ∧
    "cargo:rustc-link-lib=static=mnn_c" ∈ L := by
  unfold mainDirectives mnn_c_build at h
  cases h1 : linkSearchStep (mnn_compile cv) ld with
  | error err =>
    rw [h1] at h
    exact absurd h (by simp)
  | ok sd =>
    rw [h1] at h
    by_cases hmc : (is_msvc_target e && !is_clang_cl e) = true
    · rw [if_pos hmc] at h
      exact absurd h (by simp)
    · rw [if_neg hmc] at h
      simp only [Except.ok.injEq] at h
      constructor
      · rw [← h]
        exact List.getLast?_concat _
      · rw [← h]
        simp [shimDirectives]

/-- Witness for C8 (amended): a macOS build with the `metal` feature; the
stream ends with `static=MNN` and contains `static=mnn_c` earlier. -/
theorem mnn_link_directive_last_witness :
    mainDirectives (Env.mk "macos" "aarch64" "macos" none none)
        (Features.mk false true false false false false false false) none none =
      Except.ok
        ["cargo:rerun-if-changed=build.rs", "cargo:rerun-if-env-changed=MNN_SRC",
          "cargo:rustc-link-search=native=OUT_DIR/mnn-install/lib",
          "cargo:rustc-link-search=native=OUT_DIR", "cargo:rustc-link-lib=static=mnn_c",
          "cargo:include=OUT_DIR/vendor/include",
          "cargo:rustc-link-lib=framework=Foundation",
          "cargo:rustc-link-lib=framework=CoreGraphics",
          "cargo:rustc-link-lib=framework=Metal", "cargo:rustc-link-lib=static=MNN"] ∧
    ["cargo:rerun-if-changed=build.rs", "cargo:rerun-if-env-changed=MNN_SRC",
      "cargo:rustc-link-search=native=OUT_DIR/mnn-install/lib",
      "cargo:rustc-link-search=native=OUT_DIR", "cargo:rustc-link-lib=static=mnn_c",
      "cargo:include=OUT_DIR/vendor/include",
      "cargo:rustc-link-lib=framework=Foundation",
      "cargo:rustc-link-lib=framework=CoreGraphics",
      "cargo:rustc-link-lib=framework=Metal", "cargo:rustc-link-lib=static=MNN"].getLast? =
      some "cargo:rustc-link-lib=static=MNN" ∧
    "cargo:rustc-link-lib=static=mnn_c" ∈
      ["cargo:rerun-if-changed=build.rs", "cargo:rerun-if-env-changed=MNN_SRC",
        "cargo:rustc-link-search=native=OUT_DIR/mnn-install/lib",
        "cargo:rustc-link-search=native=OUT_DIR", "cargo:rustc-link-lib=static=mnn_c",
        "cargo:include=OUT_DIR/vendor/include",
        "cargo:rustc-link-lib=framework=Foundation",
        "cargo:rustc-link-lib=framework=CoreGraphics",
        "cargo:rustc-link-lib=framework=Metal", "cargo:rustc-link-lib=static=MNN"] := by
  have h : mainDirectives (Env.mk "macos" "aarch64" "macos" none none)
        (Features.mk false true false false false false false false) none none =
      Except.ok
        ["cargo:rerun-if-changed=build.rs", "cargo:rerun-if-env-changed=MNN_SRC",
          "cargo:rustc-link-search=native=OUT_DIR/mnn-install/lib",
          "cargo:rustc-link-search=native=OUT_DIR", "cargo:rustc-link-lib=static=mnn_c",
          "cargo:include=OUT_DIR/vendor/include",
          "cargo:rustc-link-lib=framework=Foundation",
          "cargo:rustc-link-lib=framework=CoreGraphics",
          "cargo:rustc-link-lib=framework=Metal", "cargo:rustc-link-lib=static=MNN"] := rfl
  have h2 := mnn_link_directive_last (Env.mk "macos" "aarch64" "macos" none none)
    (Features.mk false true false false false false false false) none none _ h
  exact ⟨h, h2.1, h2.2⟩

/-- Witness for C9: the unrecognized value `"2"` silently enables
compilation. -/
theorem mnn_compile_parsing_witness :
    ("2" : String) ≠ "1" ∧ mnn_compile (some "2") = true := by
  refine ⟨by decide, ?_⟩
  exact mnn_compile_parsing.2.2.2.2.2.2.2.1 "2" (by decide) (by decide) (by decide)
    (by decide) (by decide) (by decide)

end MnnSys
